import Mathlib

/-!
Shallow embedding of the SDL2 gamepad adapter
(`pcsx2/PAD/Linux/Devices/SDL2Gamepad.cpp`) together with theorems about
enumeration, device construction and destruction, input translation and
haptic (rumble) control.

Handles from the underlying SDL library are modelled as `Option Nat`
(`none` = NULL).  The environment `SDLEnv` packages the results the SDL
back-end would return; read-only user configuration is `Config`.  C `int`
arithmetic is modelled on `Int`, with C division (truncation toward zero)
written `Int.tdiv`.  The float multiply `value *= k` of `GetInput`
(`k = sensibility / 100.0`) is modelled as the exact rational product
followed by the C truncation to `int`; the specification fixes no rounding
mode for this multiply.
-/

namespace SDL2Pad

/-- SDL subsystem flag bits requested by the adapter (values from the SDL
headers): joystick, haptic, events, game-controller. -/
def sdlInitFlags : Nat := 0x200 ||| 0x1000 ||| 0x4000 ||| 0x2000

/-- SDL polar-direction tag (value from the SDL headers). -/
def SDL_HAPTIC_POLAR : Nat := 0

/-- SDL sine periodic-effect tag (value from the SDL headers). -/
def SDL_HAPTIC_SINE : Nat := 2

/-- SDL triangle periodic-effect tag (value from the SDL headers). -/
def SDL_HAPTIC_TRIANGLE : Nat := 8

/-- Number of preregistered haptic effect slots (small motor, big motor). -/
def NB_EFFECT : Nat := 2

/-- Reduction of a C `int` to the signed 16-bit range, modelling the
`(Sint16)` cast applied to the configured force-feedback intensity. -/
def toSint16 (x : Int) : Int := (x + 32768) % 65536 - 32768

/-- Direction part of an SDL haptic effect descriptor. -/
structure SDL_HapticDirection where
  dirType : Nat
  dir0 : Int
  deriving DecidableEq, Repr

/-- The fields of `SDL_HapticEffect` (periodic view) that the adapter
writes; all others are zeroed by the `memset`. -/
structure SDL_HapticEffect where
  type : Nat
  direction : SDL_HapticDirection
  period : Int
  magnitude : Int
  offset : Int
  phase : Int
  length : Int
  delay : Int
  attack_length : Int
  deriving DecidableEq, Repr

/-- The haptic effect descriptor the constructor builds for slot `i`
(lines 173-207): polar direction, periodic, period 10, magnitude the
`(Sint16)` cast of the configured force-feedback intensity, phase 18000,
length 125 ms, no delay or attack; type sine for slot 0 (small motor) and
triangle for every later slot (big motor). -/
def hapticEffectFor (ffIntensity : Int) (i : Nat) : SDL_HapticEffect :=
  { type := if i = 0 then SDL_HAPTIC_SINE else SDL_HAPTIC_TRIANGLE
    direction := { dirType := SDL_HAPTIC_POLAR, dir0 := 18000 }
    period := 10
    magnitude := toSint16 ffIntensity
    offset := 0
    phase := 18000
    length := 125
    delay := 0
    attack_length := 0 }

/-- Read-only view of the user configuration consumed by the adapter. -/
structure Config where
  sensibility : Int
  deadzone : Int
  ff_intensity : Int
  pad_ff : Nat → Bool

/-- Results the SDL back-end returns to the adapter; handles are `Option
Nat` with `none` for NULL.  `newEffectResult i` is the id returned by the
`i`-th `SDL_HapticNewEffect` call on a real handle (negative = failure);
a call on a NULL handle fails, which the constructor model hard-codes. -/
structure SDLEnv where
  wasInit : Nat
  initResult : Int
  numJoysticks : Nat
  isGameController : Nat → Bool
  gameControllerOpen : Nat → Option Nat
  controllerJoystick : Nat → Option Nat
  joystickOpen : Nat → Option Nat
  guidOf : Nat → Nat
  hashGuid : Nat → Nat
  joystickIsHaptic : Nat → Bool
  hapticOpenFromJoystick : Nat → Option Nat
  newEffectResult : Nat → Int

/-- Live controller state as sampled by the SDL getters. -/
structure ControllerState where
  axisOf : Nat → Int
  buttonOf : Nat → Bool

/-- The state of one `SDL2Gamepad` instance. -/
structure Device where
  m_controller : Option Nat
  m_haptic : Option Nat
  m_effects_id : List Int
  m_bindings : Nat → Nat
  m_deadzone : Int
  m_unique_id : Nat
  m_no_error : Bool

/-- `ClearBindings` (lines 246-249): every entry of the binding table is
set to 0. -/
def ClearBindings (_b : Nat → Nat) : Nat → Nat := fun _ => 0

/-- One write `m_bindings[k] = v` into the binding table. -/
def setBinding (b : Nat → Nat) (k v : Nat) : Nat → Nat :=
  fun x => if x = k then v else b x

/-- `ResetBindingsToDefault` (lines 251-259): write every pair of the
hardcoded defaults table into the binding table, in table order. -/
def ResetBindingsToDefault (defaults : List (Nat × Nat)) (b : Nat → Nat) :
    Nat → Nat :=
  defaults.foldl (fun acc p => setBinding acc p.1 p.2) b

/-- Modelled from the spec: the logical input namespace (`enum
gamePadValues` and `IsAnalogKey` live in a header that is not under the
sources given).  L2 and R2 are the two trigger codes; the analog-stick
codes form the tail segment 16..23 of the enumeration; all other codes
are digital buttons. -/
def PAD_L2 : Nat := 0

/-- Modelled from the spec: the R2 trigger code of the logical input
namespace. -/
def PAD_R2 : Nat := 1

/-- Modelled from the spec: the predicate selecting the analog-stick
codes of the logical input namespace. -/
def IsAnalogKey (i : Nat) : Bool := decide (16 ≤ i) && decide (i < 24)

/-- Line 287 `value *= k` with `k = sensibility / 100.0`: exact rational
product, then C truncation toward zero at the store into the `int`. -/
def scaleAxis (v sens : Int) : Int := (v * sens).tdiv 100

/-- `GetInput` (lines 279-301): analog sticks are scaled by the
sensitivity and gated by the strict dead-zone test on the absolute value;
triggers are gated by the strict dead-zone test and divided by 128 with
no sensitivity; everything else is a digital button reported as 0xFF or
0. -/
def GetInput (d : Device) (cfg : Config) (st : ControllerState)
    (input : Nat) : Int :=
  if IsAnalogKey input then
    let value := st.axisOf (d.m_bindings input)
    let scaled := scaleAxis value cfg.sensibility
    if d.m_deadzone < |scaled| then scaled else 0
  else if input = PAD_L2 ∨ input = PAD_R2 then
    let value := st.axisOf (d.m_bindings input)
    if d.m_deadzone < value then value.tdiv 128 else 0
  else
    if st.buttonOf (d.m_bindings input) then 0xFF else 0

/-- Calls into the SDL haptic / teardown back-end, recorded as traces. -/
inductive HapticCall where
  | newEffect (haptic : Nat) (desc : SDL_HapticEffect)
  | runEffect (haptic : Nat) (eid : Int) (iters : Nat)
  | destroyEffect (haptic : Nat) (eid : Int)
  | closeHaptic (haptic : Nat)
  | closeController (ctrl : Nat)
  deriving DecidableEq, Repr

/-- Whether a back-end call is part of haptic teardown (effect
destruction or haptic close). -/
def isHapticTeardown : HapticCall → Bool
  | HapticCall.destroyEffect _ _ => true
  | HapticCall.closeHaptic _ => true
  | _ => false

/-- The effect-registration loop of the constructor (lines 213-222),
iterating over the slots of `m_effects_id`.  Each iteration uploads
`effects 0` — the address taken at line 215 is `&effects[0]` — on the
current haptic handle; a negative result stores that result in the
current slot, nulls the haptic handle and breaks, leaving the remaining
slots at their prefilled -1.  Returns the final haptic handle, the slot
contents, and the trace of `(slot, descriptor)` uploads. -/
def regLoop (env : SDLEnv) (effects : Nat → SDL_HapticEffect) :
    Option Nat → Nat → Nat →
    Option Nat × List Int × List (Nat × SDL_HapticEffect)
  | h, _, 0 => (h, [], [])
  | h, i, n + 1 =>
    let desc := effects 0
    let eid : Int :=
      match h with
      | some _ => env.newEffectResult i
      | none => -1
    if eid < 0 then
      (none, eid :: List.replicate n (-1), [(i, desc)])
    else
      let rest := regLoop env effects h (i + 1) n
      (rest.1, eid :: rest.2.1, (i, desc) :: rest.2.2)

/-- The `SDL2Gamepad` constructor (lines 119-229), returning the
constructed device together with the trace of haptic effect uploads.
The effects table is prefilled with -1 and the binding table cleared and
reset to the defaults before any early return; `m_no_error` is set only
at the very end of the successful path. -/
def mkGamepadT (env : SDLEnv) (cfg : Config) (defaults : List (Nat × Nat))
    (id : Nat) : Device × List (Nat × SDL_HapticEffect) :=
  let base : Device :=
    { m_controller := none
      m_haptic := none
      m_effects_id := List.replicate NB_EFFECT (-1)
      m_bindings := ResetBindingsToDefault defaults (ClearBindings fun _ => 0)
      m_deadzone := cfg.deadzone
      m_unique_id := 0
      m_no_error := false }
  let ctrl : Option Nat :=
    if env.isGameController id then env.gameControllerOpen id else none
  let joy : Option Nat :=
    if env.isGameController id then ctrl.bind env.controllerJoystick
    else env.joystickOpen id
  match joy with
  | none => ({ base with m_controller := ctrl }, [])
  | some j =>
    match ctrl with
    | none => (base, [])
    | some c =>
      let uid := env.hashGuid (env.guidOf j)
      let effects := fun i => hapticEffectFor cfg.ff_intensity i
      let reg :=
        if env.joystickIsHaptic j then
          regLoop env effects (env.hapticOpenFromJoystick j) 0 NB_EFFECT
        else (none, List.replicate NB_EFFECT (-1), [])
      ({ base with
          m_controller := some c
          m_haptic := reg.1
          m_effects_id := reg.2.1
          m_unique_id := uid
          m_no_error := true }, reg.2.2)

/-- The device built by the `SDL2Gamepad` constructor. -/
def mkGamepad (env : SDLEnv) (cfg : Config) (defaults : List (Nat × Nat))
    (id : Nat) : Device :=
  (mkGamepadT env cfg defaults id).1

/-- One iteration of the enumeration loop body (lines 68-74): push the
newly constructed device, then pop it again if it is not properly
initialised. -/
def enumStep (env : SDLEnv) (cfg : Config) (defaults : List (Nat × Nat))
    (devs : List Device) (i : Nat) : List Device :=
  let dev := mkGamepad env cfg defaults i
  if dev.m_no_error then devs ++ [dev] else devs

/-- `EnumerateSDL2` (lines 26-75) acting on the Device Manager registry:
when the required subsystems are not yet up and `SDL_Init` fails, return
at line 36 — before the registry is touched; otherwise clear the registry
and run the construction loop over every joystick index. -/
def EnumerateSDL2 (env : SDLEnv) (cfg : Config)
    (defaults : List (Nat × Nat)) (devices : List Device) : List Device :=
  if (env.wasInit &&& sdlInitFlags) ≠ sdlInitFlags ∧ env.initResult < 0 then
    devices
  else
    (List.range env.numJoysticks).foldl (enumStep env cfg defaults) []

/-- The effect-destruction loop of the destructor (lines 100-104):
destroy each registered effect whose id is nonnegative, in table order. -/
def destroyEffectsLoop (h : Nat) : List Int → List HapticCall
  | [] => []
  | eid :: rest =>
    if 0 ≤ eid then
      HapticCall.destroyEffect h eid :: destroyEffectsLoop h rest
    else destroyEffectsLoop h rest

/-- The back-end calls of the destructor (lines 95-117), in program
order: with a haptic handle, first the effect-destruction loop, then the
haptic close; then, with a controller handle, the controller close. -/
def destructorCalls (d : Device) : List HapticCall :=
  (match d.m_haptic with
   | some h => destroyEffectsLoop h d.m_effects_id ++ [HapticCall.closeHaptic h]
   | none => []) ++
  (match d.m_controller with
   | some c => [HapticCall.closeController c]
   | none => [])

/-- `Rumble` (lines 77-93): guarded by slot range, the per-pad
force-feedback flag and the haptic handle; otherwise runs the effect of
the slot for one iteration.  The device state is returned unchanged —
the source only logs on a failed run. -/
def Rumble (cfg : Config) (d : Device) (slot pad : Nat) :
    Device × List HapticCall :=
  if hr : d.m_effects_id.length ≤ slot then (d, [])
  else if cfg.pad_ff pad = false then (d, [])
  else
    match d.m_haptic with
    | none => (d, [])
    | some h =>
      (d, [HapticCall.runEffect h
            (d.m_effects_id.get ⟨slot, Nat.lt_of_not_le hr⟩) 1])

/-! ### Fixtures: concrete environments, configurations and devices -/

/-- A configuration with a haptic-relevant intensity. -/
def cfgH : Config :=
  { sensibility := 100, deadzone := 0, ff_intensity := 100,
    pad_ff := fun _ => true }

/-- An environment with one recognised, haptic-capable controller whose
effect registrations succeed. -/
def envH : SDLEnv :=
  { wasInit := sdlInitFlags, initResult := 0, numJoysticks := 1,
    isGameController := fun _ => true, gameControllerOpen := fun _ => some 1,
    controllerJoystick := fun _ => some 2, joystickOpen := fun _ => none,
    guidOf := fun _ => 42, hashGuid := fun g => g + 1,
    joystickIsHaptic := fun _ => true,
    hapticOpenFromJoystick := fun _ => some 5,
    newEffectResult := fun i => Int.ofNat i }

/-- Configuration with sensitivity 100 and dead zone 8000. -/
def cfgW2 : Config :=
  { sensibility := 100, deadzone := 8000, ff_intensity := 100,
    pad_ff := fun _ => true }

/-- Device with dead zone 8000 and every logical input bound to raw
code 9. -/
def dW2 : Device :=
  { m_controller := some 1, m_haptic := none, m_effects_id := [-1, -1],
    m_bindings := fun _ => 9, m_deadzone := 8000, m_unique_id := 0,
    m_no_error := true }

/-- Controller state where every axis reads 8000. -/
def stW2 : ControllerState :=
  { axisOf := fun _ => 8000, buttonOf := fun _ => false }

/-- Controller state where every axis reads 8001. -/
def stW3 : ControllerState :=
  { axisOf := fun _ => 8001, buttonOf := fun _ => false }

/-- Controller state where every axis reads 0. -/
def stW4 : ControllerState :=
  { axisOf := fun _ => 0, buttonOf := fun _ => false }

/-- Configuration with sensitivity 100 and dead zone 0. -/
def cfgCX : Config :=
  { sensibility := 100, deadzone := 0, ff_intensity := 0,
    pad_ff := fun _ => false }

/-- Device with dead zone 0. -/
def dCX : Device :=
  { m_controller := some 1, m_haptic := none, m_effects_id := [-1, -1],
    m_bindings := fun _ => 3, m_deadzone := 0, m_unique_id := 0,
    m_no_error := true }

/-- Controller state where every axis reads the minimum signed 16-bit
value. -/
def stCX : ControllerState :=
  { axisOf := fun _ => -32768, buttonOf := fun _ => false }

/-- Device with a haptic handle, effect ids `[3, -1]` and a controller
handle. -/
def dW5 : Device :=
  { m_controller := some 7, m_haptic := some 5, m_effects_id := [3, -1],
    m_bindings := fun _ => 9, m_deadzone := 8000, m_unique_id := 0,
    m_no_error := true }

/-- An environment whose first-time subsystem init fails. -/
def envF : SDLEnv :=
  { wasInit := 0, initResult := -1, numJoysticks := 1,
    isGameController := fun _ => true, gameControllerOpen := fun _ => some 1,
    controllerJoystick := fun _ => some 2, joystickOpen := fun _ => none,
    guidOf := fun _ => 42, hashGuid := fun g => g + 1,
    joystickIsHaptic := fun _ => false,
    hapticOpenFromJoystick := fun _ => none,
    newEffectResult := fun _ => 0 }

/-- A stale device sitting in the registry before a failed re-enumerate. -/
def dStale : Device :=
  { m_controller := none, m_haptic := none, m_effects_id := [-1, -1],
    m_bindings := fun _ => 0, m_deadzone := 0, m_unique_id := 0,
    m_no_error := false }

/-- An environment where no device index opens as either a game
controller or a raw joystick. -/
def envJ : SDLEnv :=
  { wasInit := sdlInitFlags, initResult := 0, numJoysticks := 1,
    isGameController := fun _ => false, gameControllerOpen := fun _ => none,
    controllerJoystick := fun _ => none, joystickOpen := fun _ => none,
    guidOf := fun _ => 0, hashGuid := fun g => g,
    joystickIsHaptic := fun _ => false,
    hapticOpenFromJoystick := fun _ => none,
    newEffectResult := fun _ => 0 }

/-! ### C1 — haptic effect registered per slot -/

/-- C1: during construction with a haptic-capable joystick, the upload
trace shows that the descriptor registered into slot 1 is
`hapticEffectFor _ 0` — the sine effect meant for the small motor —
although the descriptor the constructor builds for slot 1 is the
triangle effect: line 215 passes `&effects[0]` for every slot. -/
theorem hapticUpload_uses_slot0_descriptor :
    (mkGamepadT envH cfgH [] 0).2 =
      [(0, hapticEffectFor cfgH.ff_intensity 0),
       (1, hapticEffectFor cfgH.ff_intensity 0)]
    ∧ (hapticEffectFor cfgH.ff_intensity 0).type = SDL_HAPTIC_SINE
    ∧ (hapticEffectFor cfgH.ff_intensity 1).type = SDL_HAPTIC_TRIANGLE
    ∧ SDL_HAPTIC_SINE ≠ SDL_HAPTIC_TRIANGLE := by decide

/-! ### C2 — analog stick translation -/

/-- C2: for an analog-stick input, `GetInput` reads the raw axis value
under the bound axis code, scales it by `sensibility / 100` and returns
the scaled value exactly when its absolute value strictly exceeds the
dead zone, else 0; when the exact product `v * k` has absolute value
equal to the dead zone (that is, `|v * sensibility| = 100 * D`), the
result is 0. -/
theorem getInput_analog_spec (d : Device) (cfg : Config)
    (st : ControllerState) (input : Nat) (ha : IsAnalogKey input = true) :
    GetInput d cfg st input =
      (if d.m_deadzone <
          |scaleAxis (st.axisOf (d.m_bindings input)) cfg.sensibility|
       then scaleAxis (st.axisOf (d.m_bindings input)) cfg.sensibility
       else 0)
    ∧ (|st.axisOf (d.m_bindings input) * cfg.sensibility|
          = 100 * d.m_deadzone →
        GetInput d cfg st input = 0) := by
  constructor
  · simp [GetInput, ha]
  · intro hEq
    have hdz : 0 ≤ d.m_deadzone := by
      have := abs_nonneg (st.axisOf (d.m_bindings input) * cfg.sensibility)
      omega
    have hcase :
        scaleAxis (st.axisOf (d.m_bindings input)) cfg.sensibility
            = d.m_deadzone ∨
        scaleAxis (st.axisOf (d.m_bindings input)) cfg.sensibility
            = -d.m_deadzone := by
      rcases (abs_eq (by linarith)).mp hEq with h1 | h1
      · left
        rw [scaleAxis, h1]
        exact Int.mul_tdiv_cancel_left _ (by norm_num)
      · right
        rw [scaleAxis, h1, Int.neg_tdiv]
        rw [Int.mul_tdiv_cancel_left _ (by norm_num : (100:Int) ≠ 0)]
    have habs :
        |scaleAxis (st.axisOf (d.m_bindings input)) cfg.sensibility|
          = d.m_deadzone := by
      rcases hcase with h1 | h1 <;> rw [h1]
      · exact abs_of_nonneg hdz
      · rw [abs_neg]; exact abs_of_nonneg hdz
    simp [GetInput, ha, habs]

/-- C2 witness: sensitivity 100, dead zone 8000, raw axis 8000:
`|v * k| = 8000` exactly, so the input is suppressed to 0. -/
theorem getInput_analog_spec_witness :
    GetInput dW2 cfgW2 stW2 16 = 0 :=
  (getInput_analog_spec dW2 cfgW2 stW2 16 (by decide)).2 (by decide)

/-! ### C3 — trigger translation -/

/-- C3: for the trigger inputs L2 and R2, `GetInput` returns the raw
value divided by 128 (C truncation) exactly when the raw value strictly
exceeds the dead zone, else 0; the result does not depend on the
sensitivity; a raw value equal to the dead zone yields 0 and one above
yields `(D + 1) / 128`. -/
theorem getInput_trigger_spec (d : Device) (cfg : Config)
    (st : ControllerState) (input : Nat)
    (h : input = PAD_L2 ∨ input = PAD_R2) :
    GetInput d cfg st input =
      (if d.m_deadzone < st.axisOf (d.m_bindings input)
       then (st.axisOf (d.m_bindings input)).tdiv 128 else 0)
    ∧ (∀ cfg2 : Config, GetInput d cfg2 st input = GetInput d cfg st input)
    ∧ (st.axisOf (d.m_bindings input) = d.m_deadzone →
        GetInput d cfg st input = 0)
    ∧ (st.axisOf (d.m_bindings input) = d.m_deadzone + 1 →
        GetInput d cfg st input = (d.m_deadzone + 1).tdiv 128) := by
  have hna : IsAnalogKey input = false := by
    rcases h with h | h <;> subst h <;> decide
  refine ⟨by simp [GetInput, hna, h], ?_, ?_, ?_⟩
  · intro cfg2; simp [GetInput, hna, h]
  · intro hv; simp [GetInput, hna, h, hv]
  · intro hv; simp [GetInput, hna, h, hv]

/-- C3 witness: dead zone 8000; raw 8000 gives 0, raw 8001 gives
`8001 / 128 = 62`. -/
theorem getInput_trigger_spec_witness :
    GetInput dW2 cfgW2 stW2 0 = 0 ∧ GetInput dW2 cfgW2 stW3 1 = 62 := by
  constructor
  · exact (getInput_trigger_spec dW2 cfgW2 stW2 0 (Or.inl rfl)).2.2.1 (by decide)
  · have h := (getInput_trigger_spec dW2 cfgW2 stW3 1 (Or.inr rfl)).2.2.2 (by decide)
    rw [h]; decide

/-! ### C4 — stick magnitude bound -/

/-- C4 counterexample: with sensitivity 100 and dead zone 0, the raw
signed 16-bit axis value -32768 yields a result of magnitude 32768,
exceeding `ceil(0x7FFF * sensitivity / 100) = 32767`. -/
theorem getInput_analog_bound_cx :
    IsAnalogKey 16 = true
    ∧ (0:Int) ≤ cfgCX.sensibility
    ∧ (-32768:Int) ≤ stCX.axisOf (dCX.m_bindings 16)
    ∧ stCX.axisOf (dCX.m_bindings 16) ≤ 32767
    ∧ ¬((GetInput dCX cfgCX stCX 16).natAbs ≤
          (32767 * cfgCX.sensibility.toNat + 99) / 100) := by decide

/-- C4 (amended): for an analog-stick input, a nonnegative sensitivity
and a raw axis value in the signed 16-bit range, the magnitude of
`GetInput` is at most `ceil(0x8000 * sensitivity / 100)` (the claimed
bound `ceil(0x7FFF * sensitivity / 100)` fails at raw value -32768);
and a raw axis value of 0 gives 0, for every sensitivity and dead
zone. -/
theorem getInput_analog_bound (d : Device) (cfg : Config)
    (st : ControllerState) (input : Nat)
    (ha : IsAnalogKey input = true)
    (hs : 0 ≤ cfg.sensibility)
    (h1 : -32768 ≤ st.axisOf (d.m_bindings input))
    (h2 : st.axisOf (d.m_bindings input) ≤ 32767) :
    (GetInput d cfg st input).natAbs
        ≤ (32768 * cfg.sensibility.toNat + 99) / 100
    ∧ (st.axisOf (d.m_bindings input) = 0 →
        GetInput d cfg st input = 0) := by
  constructor
  · have hb : (scaleAxis (st.axisOf (d.m_bindings input))
        cfg.sensibility).natAbs
        ≤ (32768 * cfg.sensibility.toNat + 99) / 100 := by
      rw [scaleAxis, Int.natAbs_tdiv, Int.natAbs_mul]
      have hv : (st.axisOf (d.m_bindings input)).natAbs ≤ 32768 := by omega
      have hsn : cfg.sensibility.natAbs = cfg.sensibility.toNat := by omega
      have hna : ((100:Int)).natAbs = 100 := rfl
      rw [hna, hsn]
      calc (st.axisOf (d.m_bindings input)).natAbs
              * cfg.sensibility.toNat / 100
          ≤ 32768 * cfg.sensibility.toNat / 100 :=
            Nat.div_le_div_right (Nat.mul_le_mul_right _ hv)
        _ ≤ (32768 * cfg.sensibility.toNat + 99) / 100 :=
            Nat.div_le_div_right (Nat.le_add_right _ _)
    by_cases hc : d.m_deadzone <
        |scaleAxis (st.axisOf (d.m_bindings input)) cfg.sensibility|
    · simpa [GetInput, ha, hc] using hb
    · simp [GetInput, ha, hc]
  · intro h0
    simp [GetInput, ha, h0, scaleAxis, Int.zero_tdiv]

/-- C4 witness: sensitivity 100, dead zone 8000, raw axis 0: the result
is 0 and in particular within the amended bound. -/
theorem getInput_analog_bound_witness :
    (GetInput dW2 cfgW2 stW4 16).natAbs
        ≤ (32768 * cfgW2.sensibility.toNat + 99) / 100
    ∧ GetInput dW2 cfgW2 stW4 16 = 0 := by
  have h := getInput_analog_bound dW2 cfgW2 stW4 16 (by decide) (by decide)
    (by decide) (by decide)
  exact ⟨h.1, h.2 (by decide)⟩

/-! ### C5 — rumble guards -/

/-- C5: `Rumble` makes no back-end call and leaves the device unchanged
when the slot is out of range of the effects table, the per-pad
force-feedback flag is off, or there is no haptic handle; otherwise it
starts exactly `m_effects_id[slot]` for one iteration, again leaving the
device state unchanged (a failed start is only logged). -/
theorem rumble_spec (cfg : Config) (d : Device) (slot pad : Nat) :
    ((d.m_effects_id.length ≤ slot ∨ cfg.pad_ff pad = false ∨
        d.m_haptic = none) →
      Rumble cfg d slot pad = (d, []))
    ∧ (∀ h (hs : slot < d.m_effects_id.length),
        cfg.pad_ff pad = true → d.m_haptic = some h →
        Rumble cfg d slot pad =
          (d, [HapticCall.runEffect h (d.m_effects_id.get ⟨slot, hs⟩) 1])) := by
  constructor
  · intro hg
    unfold Rumble
    by_cases hr : d.m_effects_id.length ≤ slot
    · rw [dif_pos hr]
    · rw [dif_neg hr]
      rcases hg with hg | hg | hg
      · exact absurd hg hr
      · rw [if_pos hg]
      · by_cases hp : cfg.pad_ff pad = false
        · rw [if_pos hp]
        · rw [if_neg hp, hg]
  · intro h hs hp hh
    unfold Rumble
    rw [dif_neg (Nat.not_le.mpr hs), if_neg (by simp [hp]), hh]

/-- C5 witness: slot 0 of a device with haptic handle 5 and effect ids
`[3, -1]`, force feedback enabled: exactly one run of effect 3 for one
iteration, device unchanged. -/
theorem rumble_spec_witness :
    Rumble cfgH dW5 0 0 = (dW5, [HapticCall.runEffect 5 3 1]) :=
  (rumble_spec cfgH dW5 0 0).2 5 (by decide) rfl rfl

/-! ### C6 — registry invariant after enumeration -/

/-- If the constructor ends with `m_no_error` true, the controller
handle is present: the flag is set only at the end of the path that
survived both open checks. -/
theorem mk_ok_controller (env : SDLEnv) (cfg : Config)
    (defaults : List (Nat × Nat)) (id : Nat) :
    (mkGamepad env cfg defaults id).m_no_error = true →
    (mkGamepad env cfg defaults id).m_controller.isSome = true := by
  unfold mkGamepad mkGamepadT
  dsimp only
  split
  · intro h; simp at h
  · split
    · intro h; simp at h
    · intro _; rfl

/-- Every device kept by the enumeration loop was pushed with
`m_no_error` true (a failed construction is popped right away), and so
carries a controller handle. -/
theorem mem_enumFold (env : SDLEnv) (cfg : Config)
    (defaults : List (Nat × Nat)) :
    ∀ (l : List Nat) (acc : List Device) (d : Device),
      d ∈ l.foldl (enumStep env cfg defaults) acc →
      d ∈ acc ∨ (d.m_no_error = true ∧ d.m_controller.isSome = true) := by
  intro l
  induction l with
  | nil => intro acc d hd; exact Or.inl hd
  | cons i t ih =>
    intro acc d hd
    rw [List.foldl_cons] at hd
    rcases ih _ d hd with hmem | hok
    · unfold enumStep at hmem
      dsimp only at hmem
      by_cases hno : (mkGamepad env cfg defaults i).m_no_error = true
      · rw [if_pos hno] at hmem
        rcases List.mem_append.mp hmem with h1 | h1
        · exact Or.inl h1
        · right
          rw [List.mem_singleton.mp h1]
          exact ⟨hno, mk_ok_controller env cfg defaults i hno⟩
      · rw [if_neg hno] at hmem
        exact Or.inl hmem
    · exact Or.inr hok

/-- C6: provided the registry satisfied the invariant before the call,
every device held by the manager after `EnumerateSDL2` completes has
`m_no_error` true and a present controller handle — devices whose
construction failed are popped immediately after being pushed. -/
theorem enumerate_registry_ok (env : SDLEnv) (cfg : Config)
    (defaults : List (Nat × Nat)) (devs0 : List Device)
    (h0 : ∀ d ∈ devs0, d.m_no_error = true ∧ d.m_controller.isSome = true) :
    ∀ d ∈ EnumerateSDL2 env cfg defaults devs0,
      d.m_no_error = true ∧ d.m_controller.isSome = true := by
  intro d hd
  unfold EnumerateSDL2 at hd
  split at hd
  · exact h0 d hd
  · rcases mem_enumFold env cfg defaults _ _ d hd with hmem | hok
    · simp at hmem
    · exact hok

/-- C6 witness: enumerating one recognised controller starting from an
empty registry leaves exactly that device, properly initialised and with
its controller handle. -/
theorem enumerate_registry_ok_witness :
    (mkGamepad envH cfgH [] 0).m_no_error = true
    ∧ (mkGamepad envH cfgH [] 0).m_controller.isSome = true :=
  enumerate_registry_ok envH cfgH [] [] (by simp)
    (mkGamepad envH cfgH [] 0)
    (by rw [show EnumerateSDL2 envH cfgH [] []
              = [mkGamepad envH cfgH [] 0] from rfl]
        exact List.mem_singleton.mpr rfl)

/-! ### C7 — destructor teardown order -/

/-- The destructor's effect loop destroys exactly the registered ids
(those that are nonnegative), in table order. -/
theorem destroyEffectsLoop_eq (h : Nat) (l : List Int) :
    destroyEffectsLoop h l =
      (l.filter fun e => decide (0 ≤ e)).map (HapticCall.destroyEffect h) := by
  induction l with
  | nil => rfl
  | cons e rest ih =>
    by_cases he : 0 ≤ e
    · simp [destroyEffectsLoop, he, ih, List.filter_cons]
    · simp [destroyEffectsLoop, he, ih, List.filter_cons]

/-- A device without a haptic handle performs no haptic teardown call on
destruction. -/
theorem no_haptic_no_teardown (d : Device) (hh : d.m_haptic = none) :
    ∀ c ∈ destructorCalls d, isHapticTeardown c = false := by
  intro c hc
  unfold destructorCalls at hc
  rw [hh] at hc
  rcases hmc : d.m_controller with _ | ctrl <;> rw [hmc] at hc <;> simp at hc
  rw [hc]; rfl

/-- C7: with a haptic handle, destruction performs exactly — and in this
order — the destruction of each registered effect id that is
nonnegative, then the haptic close, then the controller close when a
controller handle exists; without a haptic handle no haptic teardown
call is made. -/
theorem destructor_order (d : Device) :
    (∀ h, d.m_haptic = some h →
      destructorCalls d =
        ((d.m_effects_id.filter fun e => decide (0 ≤ e)).map
            (HapticCall.destroyEffect h) ++ [HapticCall.closeHaptic h]) ++
          (match d.m_controller with
           | some c => [HapticCall.closeController c]
           | none => []))
    ∧ (d.m_haptic = none →
        ∀ c ∈ destructorCalls d, isHapticTeardown c = false) := by
  constructor
  · intro h hh
    unfold destructorCalls
    rw [hh]
    dsimp only
    rw [destroyEffectsLoop_eq]
  · exact no_haptic_no_teardown d

/-- C7 witness: haptic handle 5, effect ids `[3, -1]`, controller
handle 7: destroy effect 3, close the haptic, close the controller, in
that order and nothing else. -/
theorem destructor_order_witness :
    destructorCalls dW5 = [HapticCall.destroyEffect 5 3,
      HapticCall.closeHaptic 5, HapticCall.closeController 7] := by
  have h := (destructor_order dW5).1 5 rfl
  rw [h]; decide

/-! ### C8 — binding table operations -/

/-- Keys absent from the defaults table keep their previous binding
through `ResetBindingsToDefault`. -/
theorem resetFold_not_mem (defaults : List (Nat × Nat)) :
    ∀ (b : Nat → Nat) (k : Nat), k ∉ defaults.map Prod.fst →
      ResetBindingsToDefault defaults b k = b k := by
  induction defaults with
  | nil => intro b k _; rfl
  | cons p t ih =>
    intro b k hk
    rw [List.map_cons, List.mem_cons] at hk
    push_neg at hk
    have h2 := ih (setBinding b p.1 p.2) k hk.2
    simp only [ResetBindingsToDefault, List.foldl_cons] at h2 ⊢
    rw [h2]
    simp only [setBinding]
    exact if_neg hk.1

/-- With pairwise distinct keys, every pair of the defaults table ends
up written in the binding table. -/
theorem resetFold_mem : ∀ (defaults : List (Nat × Nat)),
    (defaults.map Prod.fst).Nodup →
    ∀ (b : Nat → Nat) (p : Nat × Nat), p ∈ defaults →
      ResetBindingsToDefault defaults b p.1 = p.2 := by
  intro defaults
  induction defaults with
  | nil => intro _ b p hp; cases hp
  | cons q t ih =>
    intro hnd b p hp
    rw [List.map_cons, List.nodup_cons] at hnd
    rcases List.mem_cons.mp hp with h1 | h1
    · subst h1
      have h2 := resetFold_not_mem t (setBinding b p.1 p.2) p.1 hnd.1
      simp only [ResetBindingsToDefault, List.foldl_cons] at h2 ⊢
      rw [h2]
      simp [setBinding]
    · have h2 := ih hnd.2 (setBinding b q.1 q.2) p h1
      simp only [ResetBindingsToDefault, List.foldl_cons] at h2 ⊢
      exact h2

/-- C8: after `ClearBindings` every entry of the binding table is 0;
after `ResetBindingsToDefault` every key of the (duplicate-free)
defaults table holds its default value, while every key not in the
table keeps the value it had before the call. -/
theorem bindings_spec (defaults : List (Nat × Nat)) (b0 : Nat → Nat)
    (hnd : (defaults.map Prod.fst).Nodup) :
    (∀ k, ClearBindings b0 k = 0)
    ∧ (∀ p ∈ defaults, ResetBindingsToDefault defaults b0 p.1 = p.2)
    ∧ (∀ k, k ∉ defaults.map Prod.fst →
        ResetBindingsToDefault defaults b0 k = b0 k) :=
  ⟨fun _ => rfl,
   fun p hp => resetFold_mem defaults hnd b0 p hp,
   fun k hk => resetFold_not_mem defaults b0 k hk⟩

/-- C8 witness: defaults `[(0, 5), (2, 7)]` over the constant table 1:
key 0 takes its default 5, the absent key 1 keeps its old value 1, and
clearing gives 0 everywhere (entry 3 shown). -/
theorem bindings_spec_witness :
    ResetBindingsToDefault [(0, 5), (2, 7)] (fun _ => 1) 0 = 5
    ∧ ResetBindingsToDefault [(0, 5), (2, 7)] (fun _ => 1) 1 = 1
    ∧ ClearBindings (fun _ => 1) 3 = 0 := by
  have h := bindings_spec [(0, 5), (2, 7)] (fun _ => 1) (by decide)
  exact ⟨h.2.1 (0, 5) (by simp), h.2.2 1 (by decide), h.1 3⟩

/-! ### C9 — failed subsystem init -/

/-- C9 counterexample: with the subsystems not yet up and a failing
init, `EnumerateSDL2` leaves a previously non-empty registry non-empty —
the early return at line 36 happens before the `devices.clear()` at
line 66, so the registry is not left empty for every prior content. -/
theorem enumerate_initfail_cx :
    (envF.wasInit &&& sdlInitFlags) ≠ sdlInitFlags
    ∧ envF.initResult < 0
    ∧ EnumerateSDL2 envF cfgH [] [dStale] ≠ [] := by
  refine ⟨by decide, by decide, ?_⟩
  rw [show EnumerateSDL2 envF cfgH [] [dStale] = [dStale] from rfl]
  exact List.cons_ne_nil _ _

/-- C9 (amended): whenever first-time initialization of the subsystems
fails, `EnumerateSDL2` returns silently with the registry unchanged — in
particular the registry is empty afterwards exactly when it was empty
before the call. -/
theorem enumerate_initfail (env : SDLEnv) (cfg : Config)
    (defaults : List (Nat × Nat)) (devs0 : List Device)
    (h1 : (env.wasInit &&& sdlInitFlags) ≠ sdlInitFlags)
    (h2 : env.initResult < 0) :
    EnumerateSDL2 env cfg defaults devs0 = devs0 := by
  unfold EnumerateSDL2
  rw [if_pos ⟨h1, h2⟩]

/-- C9 witness: failing init starting from an empty registry leaves it
empty. -/
theorem enumerate_initfail_witness :
    EnumerateSDL2 envF cfgH [] [] = [] :=
  enumerate_initfail envF cfgH [] [] (by decide) (by decide)

/-! ### C10 — partially constructed devices -/

/-- C10: a device whose construction failed before `m_no_error` was set
(open failure or unrecognised controller) still has its effects table
fully filled with -1 and its binding table cleared and reset to the
defaults, and has no haptic handle — so destroying it performs no haptic
effect destruction and no haptic close. -/
theorem partial_device (env : SDLEnv) (cfg : Config)
    (defaults : List (Nat × Nat)) (id : Nat)
    (h : (mkGamepad env cfg defaults id).m_no_error = false) :
    (mkGamepad env cfg defaults id).m_effects_id
        = List.replicate NB_EFFECT (-1)
    ∧ (mkGamepad env cfg defaults id).m_bindings
        = ResetBindingsToDefault defaults (ClearBindings fun _ => 0)
    ∧ (mkGamepad env cfg defaults id).m_haptic = none
    ∧ ∀ c ∈ destructorCalls (mkGamepad env cfg defaults id),
        isHapticTeardown c = false := by
  revert h
  unfold mkGamepad mkGamepadT
  dsimp only
  split
  · intro _
    exact ⟨rfl, rfl, rfl, no_haptic_no_teardown _ rfl⟩
  · split
    · intro _
      exact ⟨rfl, rfl, rfl, no_haptic_no_teardown _ rfl⟩
    · intro h
      simp at h

/-- C10 witness: an index that opens neither as game controller nor as
raw joystick gives a failed device with prefilled effects table and no
haptic handle. -/
theorem partial_device_witness :
    (mkGamepad envJ cfgH [] 0).m_no_error = false
    ∧ (mkGamepad envJ cfgH [] 0).m_effects_id
        = List.replicate NB_EFFECT (-1)
    ∧ (mkGamepad envJ cfgH [] 0).m_haptic = none := by
  refine ⟨by decide, ?_, ?_⟩
  · exact (partial_device envJ cfgH [] 0 (by decide)).1
  · exact (partial_device envJ cfgH [] 0 (by decide)).2.2.1

end SDL2Pad
